import Mathlib

/-!
# Verification of the LawBandit PDF highlighter's highlighting pipeline

Shallow embedding of the highlight-creation, storage, projection and color
derivation logic of the repository.  JavaScript numbers are modelled as `ℚ`,
JavaScript strings as `String`, and the DOM inputs (selection rectangle,
text-layer rectangles, canvas sizes) as explicit parameters.  Fallible
operations are modelled with `Option`.
-/

/-- JS `String.prototype.startsWith` on character lists: `listLeads n h` is
true when `n` is an initial segment of `h`. -/
def listLeads : List Char → List Char → Bool
  | [], _ => true
  | _ :: _, [] => false
  | a :: as, b :: bs => a == b && listLeads as bs

/-- Substring occurrence on character lists: `listOccurs n h` is true when
`n` occurs contiguously inside `h`. -/
def listOccurs : List Char → List Char → Bool
  | n, [] => n.isEmpty
  | n, b :: bs => listLeads n (b :: bs) || listOccurs n bs

/-- JS `hay.includes(needle)`: substring containment. -/
def jsIncludes (hay needle : String) : Bool :=
  listOccurs needle.data hay.data

/-- JS `String.prototype.toLowerCase`, modelled character-wise. -/
def lowerStr (s : String) : String :=
  ⟨s.data.map Char.toLower⟩

/-- Remove leading and trailing whitespace from a character list. -/
def trimChars (l : List Char) : List Char :=
  ((l.dropWhile Char.isWhitespace).reverse.dropWhile Char.isWhitespace).reverse

/-- JS `String.prototype.trim`. -/
def trimStr (s : String) : String :=
  ⟨trimChars s.data⟩

/-- JS `Math.min` on rationals, kept as an explicit conditional so that
concrete evaluations reduce in the kernel. -/
def jsMin (a b : ℚ) : ℚ := if a ≤ b then a else b

/-- JS `Math.max` on rationals. -/
def jsMax (a b : ℚ) : ℚ := if a ≤ b then b else a

/-- JS `Math.abs` on rationals. -/
def jsAbs (a : ℚ) : ℚ := if a < 0 then -a else a

/-- A DOM client rectangle (`getBoundingClientRect` result): absolute pixel
`left`/`top` plus `width`/`height`. -/
structure ClientRect where
  left : ℚ
  top : ℚ
  width : ℚ
  height : ℚ
deriving DecidableEq, Repr

/-- `right` edge of a client rectangle. -/
def ClientRect.right (r : ClientRect) : ℚ := r.left + r.width

/-- `bottom` edge of a client rectangle. -/
def ClientRect.bottom (r : ClientRect) : ℚ := r.top + r.height

/-- A normalized highlight position as stored by the canvas viewer
(`part_003`): fractions of the canvas pixel size. -/
structure Position where
  x : ℚ
  y : ℚ
  width : ℚ
  height : ℚ
deriving DecidableEq, Repr

namespace Part003

/-- The `Highlight` record of the canvas-based viewer (`part_003`): note the
geometry is a single optional `position`, not a list of rectangles. -/
structure Highlight where
  id : String
  text : String
  color : String
  background : String
  pageNumber : ℕ
  position : Option Position
  created : String
deriving DecidableEq, Repr

/-- The normalization step of `createHighlight` (part_003 lines 276–281):
store the selection rectangle as fractions of the canvas pixel size,
relative to the text layer's origin.  No clamping is performed. -/
def normalizePosition (rect layer : ClientRect) (canvasWidth canvasHeight : ℚ) : Position :=
  { x := (rect.left - layer.left) / canvasWidth
    y := (rect.top - layer.top) / canvasHeight
    width := rect.width / canvasWidth
    height := rect.height / canvasHeight }

/-- The projection step of `renderHighlights` (part_003 lines 218–225):
convert a stored normalized position back to absolute pixels by multiplying
with the current canvas pixel size. -/
def projectPosition (p : Position) (canvasWidth canvasHeight : ℚ) : ClientRect :=
  { left := p.x * canvasWidth
    top := p.y * canvasHeight
    width := p.width * canvasWidth
    height := p.height * canvasHeight }

/-- The DOM inputs read by `createHighlight` (part_003 lines 245–300): the
selected text, whether a selection with at least one range exists, the
selection's bounding client rectangle, the current page, the per-page
text-layer rectangles (in the iteration order of the ref map), the per-page
canvas pixel sizes, and the freshly generated id / creation time. -/
structure SelectionEnv where
  text : String
  hasSelection : Bool
  rect : ClientRect
  currentPage : ℕ
  textLayers : List (ℕ × ClientRect)
  canvases : List (ℕ × ℚ × ℚ)
  freshId : String
  created : String
deriving DecidableEq, Repr

/-- `Map.get` on a page-keyed association list. -/
def lookupPage {α : Type} (p : ℕ) (l : List (ℕ × α)) : Option α :=
  (l.find? (fun e => e.1 == p)).map (fun e => e.2)

/-- The page-finding loop of `createHighlight` (part_003 lines 254–264):
the first text layer that vertically contains the selection rectangle wins;
otherwise fall back to the current page and its (possibly absent) layer. -/
def findSelectedLayer (env : SelectionEnv) : ℕ × Option ClientRect :=
  match env.textLayers.find?
      (fun e => decide (e.2.top ≤ env.rect.top ∧ env.rect.bottom ≤ e.2.bottom)) with
  | some e => (e.1, some e.2)
  | none => (env.currentPage, lookupPage env.currentPage env.textLayers)

/-- The optional geometry computed by `createHighlight` (part_003 lines
266–283): `none` when the text layer or the canvas of the selected page is
unavailable, otherwise the normalized selection rectangle. -/
def selPosition (env : SelectionEnv) : Option Position :=
  match (findSelectedLayer env).2 with
  | none => none
  | some layer =>
    match lookupPage (findSelectedLayer env).1 env.canvases with
    | none => none
    | some wh => some (normalizePosition env.rect layer wh.1 wh.2)

/-- `createHighlight` of part_003 (lines 245–300), as a store transformer:
rejects empty/short text (`!text || text.length < 2`) and absent selections,
then appends the new highlight — with `position` possibly `none` — to the
store.  The function is total: no branch throws. -/
def createHighlight (color background : String) (env : SelectionEnv)
    (highlights : List Highlight) : List Highlight :=
  if env.text.length == 0 || env.text.length < 2 then highlights
  else if !env.hasSelection then highlights
  else
    highlights ++
      [{ id := env.freshId
         text := trimStr env.text
         color := color
         background := background
         pageNumber := (findSelectedLayer env).1
         position := selPosition env
         created := env.created }]

/-- `deleteHighlight` of part_003 (lines 549–556): keep every highlight
whose id differs. -/
def deleteHighlight (highlightId : String) (highlights : List Highlight) :
    List Highlight :=
  highlights.filter (fun h => h.id != highlightId)

/-- `filteredHighlights` of part_003 (lines 559–561): case-insensitive
substring filter of the store by the search term. -/
def filteredHighlights (searchTerm : String) (highlights : List Highlight) :
    List Highlight :=
  highlights.filter (fun h => jsIncludes (lowerStr h.text) (lowerStr searchTerm))

/-- Value of a hexadecimal digit, as accepted by `parseInt(·, 16)`. -/
def hexDigitVal (c : Char) : Option ℕ :=
  if c.isDigit then some (c.toNat - 48)
  else if 97 ≤ c.toNat ∧ c.toNat ≤ 102 then some (c.toNat - 87)
  else if 65 ≤ c.toNat ∧ c.toNat ≤ 70 then some (c.toNat - 55)
  else none

/-- `parseInt(hex.substr(i, 2), 16)` for two hex digits. -/
def hexByte (c1 c2 : Char) : Option ℕ :=
  match hexDigitVal c1, hexDigitVal c2 with
  | some h, some l => some (16 * h + l)
  | _, _ => none

/-- JS `mainColor.replace('#', '')`: remove the first `'#'` occurrence. -/
def stripHashChars : List Char → List Char
  | [] => []
  | c :: cs => if c == '#' then cs else c :: stripHashChars cs

/-- The three channel parses of `generateBackgroundColor` (part_003 lines
69–72) on a 6-hex-digit color value; invalid input (for which the JS code
would produce NaN channels) is modelled as `none`. -/
def parseRGB (mainColor : String) : Option (ℕ × ℕ × ℕ) :=
  match stripHashChars mainColor.data with
  | c1 :: c2 :: c3 :: c4 :: c5 :: c6 :: _ =>
    match hexByte c1 c2, hexByte c3 c4, hexByte c5 c6 with
    | some r, some g, some b => some (r, g, b)
    | _, _, _ => none
  | _ => none

/-- The `lighten` closure of `generateBackgroundColor` (part_003 line 74):
`Math.min(255, Math.floor(color + (255 - color) * 0.7))`. -/
def lighten (c : ℕ) : ℤ :=
  min 255 ⌊(c : ℚ) + (255 - (c : ℚ)) * (7 / 10)⌋

/-- `generateBackgroundColor` of part_003 (lines 68–81): parse the hex
channels, lighten each toward 255 and render an `rgb(r, g, b)` string. -/
def generateBackgroundColor (mainColor : String) : Option String :=
  match parseRGB mainColor with
  | none => none
  | some (r, g, b) =>
    some ("rgb(" ++ toString (lighten r) ++ ", " ++ toString (lighten g) ++
      ", " ++ toString (lighten b) ++ ")")

/-- Browser semantics of `range.getBoundingClientRect()`: the bounding box
of the range's client rectangles. -/
def boundingClientRect (rs : List ClientRect) : ClientRect :=
  match rs with
  | [] => ⟨0, 0, 0, 0⟩
  | r :: rest =>
    let l := rest.foldl (fun a x => jsMin a x.left) r.left
    let t := rest.foldl (fun a x => jsMin a x.top) r.top
    let ri := rest.foldl (fun a x => jsMax a x.right) r.right
    let bo := rest.foldl (fun a x => jsMax a x.bottom) r.bottom
    ⟨l, t, ri - l, bo - t⟩

/-- The selection geometry `createHighlight` (part_003 lines 251–252, 276–281)
stores for a selection whose raw client rectangles are `rs`: the code reads
only `range.getBoundingClientRect()`, so exactly one rectangle — the bounding
box of `rs` — is stored, whatever `rs` is. -/
def storedSelectionRects (rs : List ClientRect) : List ClientRect :=
  [boundingClientRect rs]

/-- Number of distinct values in a list of rationals. -/
def distinctCount : List ℚ → ℕ
  | [] => 0
  | x :: xs => (if x ∈ xs then 0 else 1) + distinctCount xs

/-- Number of distinct visual lines in a rectangle set, counted by distinct
top edges. -/
def distinctLineCount (rs : List ClientRect) : ℕ :=
  distinctCount (rs.map ClientRect.top)

end Part003

/-- Ordering used by the spec's Line Merger: by top edge, then left edge. -/
def rectLe (a b : ClientRect) : Bool :=
  if a.top < b.top then true
  else if a.top = b.top then (if a.left ≤ b.left then true else false)
  else false

/-- Insertion into a `rectLe`-sorted list. -/
def insertRect (r : ClientRect) : List ClientRect → List ClientRect
  | [] => [r]
  | x :: xs => if rectLe r x then r :: x :: xs else x :: insertRect r xs

/-- Insertion sort of rectangles by `rectLe`. -/
def sortRects (l : List ClientRect) : List ClientRect :=
  l.foldr insertRect []

/-- Group a sorted rectangle list into lines: a rectangle joins the current
line when its top edge is within 5 px of the line's first rectangle. -/
def groupLinesAux (cur : List ClientRect) (curTop : ℚ) :
    List ClientRect → List (List ClientRect)
  | [] => [cur.reverse]
  | r :: rest =>
    if jsAbs (r.top - curTop) < 5 then groupLinesAux (r :: cur) curTop rest
    else cur.reverse :: groupLinesAux [r] r.top rest

/-- Group rectangles (assumed sorted) into visual lines. -/
def groupLines : List ClientRect → List (List ClientRect)
  | [] => []
  | r :: rest => groupLinesAux [r] r.top rest

/-- Merge one line group into a single band: from the leftmost left edge to
the rightmost right edge, with the group's maximum height. -/
def mergeGroup (g : List ClientRect) : ClientRect :=
  match g with
  | [] => ⟨0, 0, 0, 0⟩
  | r :: rest =>
    let l := rest.foldl (fun a x => jsMin a x.left) r.left
    let t := rest.foldl (fun a x => jsMin a x.top) r.top
    let ri := rest.foldl (fun a x => jsMax a x.right) r.right
    let h := rest.foldl (fun a x => jsMax a x.height) r.height
    ⟨l, t, ri - l, h⟩

/-- Modelled from the spec (§4.2 Line Merger), for comparison with the code's
stored geometry: sort rectangles by vertical then horizontal position, group
into lines by top-edge proximity (below ~5 px), and merge each line into one
rectangle spanning leftmost to rightmost edge with the group's max height.
No implementation of this merger exists anywhere in the repository sources. -/
def specLineMerge (rs : List ClientRect) : List ClientRect :=
  (groupLines (sortRects rs)).map mergeGroup

namespace ViewerIframe

/-- The `Highlight` record of the iframe-based viewer
(src/components/PDFViewer.tsx, default export): no geometry is stored. -/
structure Highlight where
  id : String
  text : String
  color : String
  background : String
  created : String
deriving DecidableEq, Repr

/-- `createHighlight` of the iframe-based viewer (PDFViewer.tsx lines
911–937), as a store transformer: rejects empty/short text
(`!text || text.length < 3`) and — case-insensitively, modulo surrounding
whitespace (`h.text.toLowerCase().trim() === text.toLowerCase().trim()`) —
duplicated text, otherwise appends the trimmed text. -/
def createHighlight (text selectedColor selectedBackground freshId created : String)
    (highlights : List Highlight) : List Highlight :=
  if text.length == 0 || text.length < 3 then highlights
  else if highlights.any
      (fun h => trimStr (lowerStr h.text) == trimStr (lowerStr text)) then highlights
  else
    highlights ++
      [{ id := freshId
         text := trimStr text
         color := selectedColor
         background := selectedBackground
         created := created }]

end ViewerIframe

namespace Part005

/-- The `Highlight` record of the earlier iframe viewer (`part_005`). -/
structure Highlight where
  id : String
  text : String
  color : String
  background : String
  created : String
deriving DecidableEq, Repr

/-- The store effect of `handleTextSelection` of `part_005` (lines 45–145):
guards on the highlighting mode, the selection, the (already trimmed)
selected text's length, and an *exact* duplicate of the text
(`highlights.find(h => h.text === selectedText)`); every DOM branch then
appends the new highlight, except when the iframe is accessible but its
selection has no range. -/
def handleTextSelection (isHighlighting hasSelection : Bool)
    (selectedText : String) (iframeAccessible iframeHasRange : Bool)
    (selectedColor selectedBackground freshId created : String)
    (highlights : List Highlight) : List Highlight :=
  if !isHighlighting then highlights
  else if !hasSelection then highlights
  else if selectedText.length == 0 then highlights
  else if selectedText.length < 3 then highlights
  else if (highlights.find? (fun h => h.text == selectedText)).isSome then highlights
  else if iframeAccessible && !iframeHasRange then highlights
  else
    highlights ++
      [{ id := freshId
         text := selectedText
         color := selectedColor
         background := selectedBackground
         created := created }]

end Part005

/-- C1: for the two-line raw rectangle set
`[(10,0,50,10), (0,20,30,10)]`, part_003's `createHighlight` stores the single
bounding rectangle `(0,0,60,30)` of the whole selection, whereas per-line
merging (spec §4.2, also described by the repository's README) would keep one
rectangle per line — the stored geometry is not the per-line merge, and its
height 30 is not the 10 px height of either line group. -/
theorem createHighlight_stores_bbox_not_per_line :
    Part003.storedSelectionRects [⟨10, 0, 50, 10⟩, ⟨0, 20, 30, 10⟩] =
      [⟨0, 0, 60, 30⟩] ∧
    Part003.distinctLineCount [⟨10, 0, 50, 10⟩, ⟨0, 20, 30, 10⟩] = 2 ∧
    specLineMerge [⟨10, 0, 50, 10⟩, ⟨0, 20, 30, 10⟩] =
      [⟨10, 0, 50, 10⟩, ⟨0, 20, 30, 10⟩] ∧
    Part003.storedSelectionRects [⟨10, 0, 50, 10⟩, ⟨0, 20, 30, 10⟩] ≠
      specLineMerge [⟨10, 0, 50, 10⟩, ⟨0, 20, 30, 10⟩] := by
  have h1 : Part003.storedSelectionRects [⟨10, 0, 50, 10⟩, ⟨0, 20, 30, 10⟩] =
      [⟨0, 0, 60, 30⟩] := by
    norm_num [Part003.storedSelectionRects, Part003.boundingClientRect,
      jsMin, jsMax, ClientRect.right, ClientRect.bottom]
  have h3 : specLineMerge [⟨10, 0, 50, 10⟩, ⟨0, 20, 30, 10⟩] =
      [⟨10, 0, 50, 10⟩, ⟨0, 20, 30, 10⟩] := by
    norm_num [specLineMerge, sortRects, insertRect, rectLe, groupLines,
      groupLinesAux, mergeGroup, jsAbs, jsMin, jsMax, ClientRect.right]
  have h2 : Part003.distinctLineCount [⟨10, 0, 50, 10⟩, ⟨0, 20, 30, 10⟩] = 2 := by
    norm_num [Part003.distinctLineCount, Part003.distinctCount]
  refine ⟨h1, h2, h3, ?_⟩
  rw [h1, h3]
  decide

/-- C2: normalizing a rectangle at canvas size `(W, H)` (as `createHighlight`
does) and projecting it back at the same `(W, H)` (as `renderHighlights`
does) returns the original rectangle, expressed relative to the text layer's
origin; over `ℚ` the round trip is exact. -/
theorem normalize_project_roundtrip (rect layer : ClientRect) (W H : ℚ)
    (hW : 0 < W) (hH : 0 < H) :
    Part003.projectPosition (Part003.normalizePosition rect layer W H) W H =
      ⟨rect.left - layer.left, rect.top - layer.top, rect.width, rect.height⟩ := by
  simp only [Part003.normalizePosition, Part003.projectPosition,
    ClientRect.mk.injEq]
  refine ⟨?_, ?_, ?_, ?_⟩ <;> field_simp

theorem normalize_project_roundtrip_witness :
    Part003.projectPosition
        (Part003.normalizePosition ⟨3, 4, 5, 6⟩ ⟨1, 1, 200, 300⟩ 2 4) 2 4 =
      ⟨2, 3, 5, 6⟩ := by
  rw [normalize_project_roundtrip ⟨3, 4, 5, 6⟩ ⟨1, 1, 200, 300⟩ 2 4
    (by norm_num) (by norm_num)]
  norm_num

/-- C3: projecting a stored normalized position at canvas size `(2W, 2H)`
yields exactly double each absolute coordinate and dimension obtained by
projecting at `(W, H)`. -/
theorem project_double_scale (p : Position) (W H : ℚ) :
    (Part003.projectPosition p (2 * W) (2 * H)).left =
      2 * (Part003.projectPosition p W H).left ∧
    (Part003.projectPosition p (2 * W) (2 * H)).top =
      2 * (Part003.projectPosition p W H).top ∧
    (Part003.projectPosition p (2 * W) (2 * H)).width =
      2 * (Part003.projectPosition p W H).width ∧
    (Part003.projectPosition p (2 * W) (2 * H)).height =
      2 * (Part003.projectPosition p W H).height := by
  refine ⟨?_, ?_, ?_, ?_⟩ <;> simp only [Part003.projectPosition] <;> ring

/-- C4, counterexample: the normalization step performs no clamping, so a
selection rectangle left of the text layer produces a negative normalized
`x` — outside `[0,1]` — already for canvas size `100 × 100`. -/
theorem normalizePosition_escapes_unit_interval :
    (Part003.normalizePosition ⟨-5, 0, 10, 10⟩ ⟨0, 0, 100, 100⟩ 100 100).x < 0 := by
  norm_num [Part003.normalizePosition]

/-- C4, amended: when the selection rectangle is contained in the text-layer
rectangle, the rectangle's extents are nonnegative, and the canvas pixel size
equals the text layer's size `(W, H)`, every normalized coordinate produced
at highlight creation lies in `[0,1]`; without the containment precondition
the normalization step does not guarantee this (it never clamps). -/
theorem normalizePosition_in_unit_interval (rect layer : ClientRect) (W H : ℚ)
    (hW : 0 < W) (hH : 0 < H)
    (hx1 : layer.left ≤ rect.left) (hx2 : rect.left + rect.width ≤ layer.left + W)
    (hy1 : layer.top ≤ rect.top) (hy2 : rect.top + rect.height ≤ layer.top + H)
    (hw0 : 0 ≤ rect.width) (hh0 : 0 ≤ rect.height) :
    0 ≤ (Part003.normalizePosition rect layer W H).x ∧
    (Part003.normalizePosition rect layer W H).x ≤ 1 ∧
    0 ≤ (Part003.normalizePosition rect layer W H).y ∧
    (Part003.normalizePosition rect layer W H).y ≤ 1 ∧
    0 ≤ (Part003.normalizePosition rect layer W H).width ∧
    (Part003.normalizePosition rect layer W H).width ≤ 1 ∧
    0 ≤ (Part003.normalizePosition rect layer W H).height ∧
    (Part003.normalizePosition rect layer W H).height ≤ 1 := by
  simp only [Part003.normalizePosition]
  refine ⟨div_nonneg (by linarith) hW.le, (div_le_one hW).mpr (by linarith),
    div_nonneg (by linarith) hH.le, (div_le_one hH).mpr (by linarith),
    div_nonneg hw0 hW.le, (div_le_one hW).mpr (by linarith),
    div_nonneg hh0 hH.le, (div_le_one hH).mpr (by linarith)⟩

theorem normalizePosition_in_unit_interval_witness :
    0 ≤ (Part003.normalizePosition ⟨10, 10, 20, 20⟩ ⟨0, 0, 100, 100⟩ 100 100).x ∧
    (Part003.normalizePosition ⟨10, 10, 20, 20⟩ ⟨0, 0, 100, 100⟩ 100 100).x ≤ 1 ∧
    0 ≤ (Part003.normalizePosition ⟨10, 10, 20, 20⟩ ⟨0, 0, 100, 100⟩ 100 100).y ∧
    (Part003.normalizePosition ⟨10, 10, 20, 20⟩ ⟨0, 0, 100, 100⟩ 100 100).y ≤ 1 ∧
    0 ≤ (Part003.normalizePosition ⟨10, 10, 20, 20⟩ ⟨0, 0, 100, 100⟩ 100 100).width ∧
    (Part003.normalizePosition ⟨10, 10, 20, 20⟩ ⟨0, 0, 100, 100⟩ 100 100).width ≤ 1 ∧
    0 ≤ (Part003.normalizePosition ⟨10, 10, 20, 20⟩ ⟨0, 0, 100, 100⟩ 100 100).height ∧
    (Part003.normalizePosition ⟨10, 10, 20, 20⟩ ⟨0, 0, 100, 100⟩ 100 100).height ≤ 1 :=
  normalizePosition_in_unit_interval ⟨10, 10, 20, 20⟩ ⟨0, 0, 100, 100⟩ 100 100
    (by norm_num) (by norm_num) (by norm_num) (by norm_num) (by norm_num)
    (by norm_num) (by norm_num) (by norm_num)

/-- C5, counterexample: with no text layer and no canvas available, part_003's
`createHighlight` still appends the highlight to the store, with empty
geometry (`position = none`) — a geometry-less highlight is stored. -/
theorem geometryless_highlight_is_stored :
    Part003.createHighlight "c" "b"
        ⟨"hello", true, ⟨0, 0, 10, 10⟩, 1, [], [], "id1", "t"⟩ [] =
      [⟨"id1", "hello", "c", "b", 1, none, "t"⟩] := by
  decide

/-- C5, amended: once the text-length and selection guards pass, part_003's
`createHighlight` always appends exactly one highlight; its geometry is
empty (`position = none`) precisely when the selected page's text layer or
canvas is unavailable — the store may therefore contain highlights with no
geometry. -/
theorem createHighlight_appends_with_optional_geometry (c b : String)
    (env : Part003.SelectionEnv) (hs : List Part003.Highlight)
    (hlen : 2 ≤ env.text.length) (hsel : env.hasSelection = true) :
    Part003.createHighlight c b env hs =
      hs ++ [{ id := env.freshId
               text := trimStr env.text
               color := c
               background := b
               pageNumber := (Part003.findSelectedLayer env).1
               position := Part003.selPosition env
               created := env.created }] ∧
    (Part003.selPosition env = none ↔
      ((Part003.findSelectedLayer env).2 = none ∨
        Part003.lookupPage (Part003.findSelectedLayer env).1 env.canvases = none)) := by
  constructor
  · have h0 : env.text.length ≠ 0 := by omega
    have h2 : ¬ env.text.length < 2 := by omega
    simp [Part003.createHighlight, hsel, h0, h2]
  · rcases hL : (Part003.findSelectedLayer env).2 with _ | layer
    · simp [Part003.selPosition, hL]
    · rcases hC : Part003.lookupPage (Part003.findSelectedLayer env).1 env.canvases
        with _ | wh
      · simp [Part003.selPosition, hL, hC]
      · simp [Part003.selPosition, hL, hC]

theorem createHighlight_appends_with_optional_geometry_witness :
    Part003.createHighlight "c" "b"
        ⟨"hello", true, ⟨0, 0, 10, 10⟩, 1, [], [], "id2", "t"⟩ [] =
      [⟨"id2", "hello", "c", "b", 1, none, "t"⟩] ∧
    (Part003.selPosition ⟨"hello", true, ⟨0, 0, 10, 10⟩, 1, [], [], "id2", "t"⟩ = none ↔
      ((Part003.findSelectedLayer
          ⟨"hello", true, ⟨0, 0, 10, 10⟩, 1, [], [], "id2", "t"⟩).2 = none ∨
        Part003.lookupPage
          (Part003.findSelectedLayer
            ⟨"hello", true, ⟨0, 0, 10, 10⟩, 1, [], [], "id2", "t"⟩).1
          ([] : List (ℕ × ℚ × ℚ)) = none)) := by
  have h := createHighlight_appends_with_optional_geometry "c" "b"
    ⟨"hello", true, ⟨0, 0, 10, 10⟩, 1, [], [], "id2", "t"⟩ [] (by decide) rfl
  exact ⟨by rw [h.1]; decide, h.2⟩

/-- C6: part_003's `createHighlight` silently drops any selection whose text
is below the 2-character minimum-length threshold (including the empty
string and a single character such as "a"): the function is total (never
throws) and the store is returned exactly unchanged. -/
theorem short_text_leaves_store_unchanged (c b : String)
    (env : Part003.SelectionEnv) (hs : List Part003.Highlight)
    (hshort : env.text.length < 2) :
    Part003.createHighlight c b env hs = hs := by
  simp [Part003.createHighlight, hshort]

theorem short_text_leaves_store_unchanged_witness :
    Part003.createHighlight "c" "b"
        ⟨"a", true, ⟨0, 0, 1, 1⟩, 1, [], [], "i", "t"⟩
        [⟨"0", "prev", "c0", "b0", 1, none, "t0"⟩] =
      [⟨"0", "prev", "c0", "b0", 1, none, "t0"⟩] :=
  short_text_leaves_store_unchanged "c" "b"
    ⟨"a", true, ⟨0, 0, 1, 1⟩, 1, [], [], "i", "t"⟩
    [⟨"0", "prev", "c0", "b0", 1, none, "t0"⟩] (by decide)

/-- C7: when the freshly generated id is not already present in the store,
part_003's `createHighlight` followed by `deleteHighlight` of that id
restores the store exactly: no other highlight is added, removed or
modified (and an empty store becomes empty again). -/
theorem add_then_remove_restores_store (c b : String)
    (env : Part003.SelectionEnv) (hs : List Part003.Highlight)
    (hfresh : ∀ h ∈ hs, h.id ≠ env.freshId) :
    Part003.deleteHighlight env.freshId (Part003.createHighlight c b env hs) = hs := by
  have hkeep : hs.filter (fun h => h.id != env.freshId) = hs := by
    rw [List.filter_eq_self]
    intro a ha
    simpa using hfresh a ha
  unfold Part003.createHighlight Part003.deleteHighlight
  split_ifs with h1 h2
  · exact hkeep
  · exact hkeep
  · rw [List.filter_append, hkeep]
    simp

theorem add_then_remove_restores_store_witness :
    Part003.deleteHighlight "1"
        (Part003.createHighlight "c" "b"
          ⟨"hi", true, ⟨0, 0, 1, 1⟩, 1, [], [], "1", "t"⟩
          [⟨"0", "prev", "c0", "b0", 1, none, "t0"⟩]) =
      [⟨"0", "prev", "c0", "b0", 1, none, "t0"⟩] :=
  add_then_remove_restores_store "c" "b"
    ⟨"hi", true, ⟨0, 0, 1, 1⟩, 1, [], [], "1", "t"⟩
    [⟨"0", "prev", "c0", "b0", 1, none, "t0"⟩] (by decide)

/-- The empty needle occurs in every haystack (JS `s.includes("")`). -/
theorem listOccurs_nil (l : List Char) : listOccurs [] l = true := by
  cases l <;> simp [listOccurs, listLeads, List.isEmpty]

/-- C8: part_003's `filteredHighlights` returns exactly the stored
highlights whose text contains the search string under the code's
case-insensitive comparison (both sides lowercased), it preserves insertion
order (the result is a sublist of the store), and the empty search string
returns the whole store. -/
theorem search_is_ci_substring_filter (hs : List Part003.Highlight) (s : String) :
    (∀ h, h ∈ Part003.filteredHighlights s hs ↔
      h ∈ hs ∧ jsIncludes (lowerStr h.text) (lowerStr s) = true) ∧
    (Part003.filteredHighlights s hs).Sublist hs ∧
    Part003.filteredHighlights "" hs = hs := by
  refine ⟨?_, ?_, ?_⟩
  · intro h
    simp [Part003.filteredHighlights, List.mem_filter]
  · exact List.filter_sublist hs
  · rw [Part003.filteredHighlights, List.filter_eq_self]
    intro a _
    show jsIncludes (lowerStr a.text) (lowerStr "") = true
    have hempty : lowerStr "" = "" := rfl
    rw [hempty]
    exact listOccurs_nil _

/-- C9: for every color parsing as a 6-digit hex value with channels
`(r, g, b)`, part_003's `generateBackgroundColor` produces per channel `c`
exactly `min(255, c + (255 - c) * 0.7)` rounded down — the code computes
`min(255, floor(...))`, which coincides with the claim's
`floor(min(255, ...))`. -/
theorem generateBackgroundColor_is_pastel (s : String) (r g b : ℕ)
    (hparse : Part003.parseRGB s = some (r, g, b)) :
    Part003.generateBackgroundColor s =
      some ("rgb(" ++ toString ⌊min (255 : ℚ) ((r : ℚ) + (255 - (r : ℚ)) * (7 / 10))⌋ ++
        ", " ++ toString ⌊min (255 : ℚ) ((g : ℚ) + (255 - (g : ℚ)) * (7 / 10))⌋ ++
        ", " ++ toString ⌊min (255 : ℚ) ((b : ℚ) + (255 - (b : ℚ)) * (7 / 10))⌋ ++ ")") := by
  have key : ∀ n : ℕ, Part003.lighten n =
      ⌊min (255 : ℚ) ((n : ℚ) + (255 - (n : ℚ)) * (7 / 10))⌋ := by
    intro n
    unfold Part003.lighten
    have hfm : (⌊min (255 : ℚ) ((n : ℚ) + (255 - (n : ℚ)) * (7 / 10))⌋ : ℤ) =
        min ⌊(255 : ℚ)⌋ ⌊((n : ℚ) + (255 - (n : ℚ)) * (7 / 10))⌋ :=
      Int.floor_mono.map_min
    rw [hfm]
    norm_num
  simp only [Part003.generateBackgroundColor, hparse]
  rw [key r, key g, key b]

theorem generateBackgroundColor_is_pastel_witness :
    Part003.parseRGB "#112233" = some (17, 34, 51) ∧
    Part003.generateBackgroundColor "#112233" = some "rgb(183, 188, 193)" := by
  have h := generateBackgroundColor_is_pastel "#112233" 17 34 51 (by decide)
  have e1 : ⌊min (255 : ℚ) (((17 : ℕ) : ℚ) + (255 - ((17 : ℕ) : ℚ)) * (7 / 10))⌋ =
      (183 : ℤ) := by
    rw [min_eq_right (by push_cast; norm_num)]
    push_cast
    norm_num [Int.floor_eq_iff]
  have e2 : ⌊min (255 : ℚ) (((34 : ℕ) : ℚ) + (255 - ((34 : ℕ) : ℚ)) * (7 / 10))⌋ =
      (188 : ℤ) := by
    rw [min_eq_right (by push_cast; norm_num)]
    push_cast
    norm_num [Int.floor_eq_iff]
  have e3 : ⌊min (255 : ℚ) (((51 : ℕ) : ℚ) + (255 - ((51 : ℕ) : ℚ)) * (7 / 10))⌋ =
      (193 : ℤ) := by
    rw [min_eq_right (by push_cast; norm_num)]
    push_cast
    norm_num [Int.floor_eq_iff]
  refine ⟨by decide, ?_⟩
  rw [h, e1, e2, e3]
  decide

/-- C10, counterexample: part_005's `handleTextSelection` rejects only
*exact* text duplicates, so selecting "ABC" while "abc" is stored appends a
second highlight — the store then contains two highlights whose texts are
equal after lowercasing and trimming, and it was not left unchanged. -/
theorem part005_duplicate_check_is_case_sensitive :
    Part005.handleTextSelection true true "ABC" false false "c" "b" "2" "t"
        [⟨"1", "abc", "c0", "b0", "t0"⟩] =
      [⟨"1", "abc", "c0", "b0", "t0"⟩, ⟨"2", "ABC", "c", "b", "t"⟩] ∧
    trimStr (lowerStr "ABC") = trimStr (lowerStr "abc") := by
  constructor
  · decide
  · decide

/-- C10, amended: in the iframe-based viewer of `PDFViewer.tsx` (default
export), `createHighlight` *does* reject case-insensitive duplicates modulo
surrounding whitespace — if a stored highlight's text matches the (already
trimmed, as at both call sites) new text after lowercasing and trimming,
the store is unchanged — and it preserves the invariant that no two stored
highlights have texts equal after lowercasing and trimming; part_005's
`handleTextSelection`, by contrast, rejects only exact duplicates. -/
theorem iframe_createHighlight_rejects_ci_duplicates
    (text c b id created : String) (hs : List ViewerIframe.Highlight)
    (htrim : trimStr text = text)
    (hinv : hs.Pairwise fun h1 h2 =>
      trimStr (lowerStr h1.text) ≠ trimStr (lowerStr h2.text)) :
    ((∃ h ∈ hs, trimStr (lowerStr h.text) = trimStr (lowerStr text)) →
      ViewerIframe.createHighlight text c b id created hs = hs) ∧
    (ViewerIframe.createHighlight text c b id created hs).Pairwise
      (fun h1 h2 => trimStr (lowerStr h1.text) ≠ trimStr (lowerStr h2.text)) := by
  unfold ViewerIframe.createHighlight
  split_ifs with h1 h2
  · exact ⟨fun _ => rfl, hinv⟩
  · exact ⟨fun _ => rfl, hinv⟩
  · refine ⟨fun hdup => ?_, ?_⟩
    · exfalso
      rcases hdup with ⟨h, hmem, heq⟩
      have : hs.any
          (fun h => trimStr (lowerStr h.text) == trimStr (lowerStr text)) = true := by
        rw [List.any_eq_true]
        exact ⟨h, hmem, by simpa using heq⟩
      exact h2 this
    · rw [List.pairwise_append]
      refine ⟨hinv, by simp, ?_⟩
      intro a ha b' hb'
      have hb'' : b' = ViewerIframe.Highlight.mk id (trimStr text) c b created := by
        simpa using hb'
      rw [hb'']
      have hnot := h2
      rw [List.any_eq_true] at hnot
      push_neg at hnot
      have := hnot a ha
      simp only [beq_iff_eq] at this
      simpa [htrim] using this

theorem iframe_createHighlight_rejects_ci_duplicates_witness :
    ((∃ h ∈ [(⟨"1", "xyz", "c0", "b0", "t0"⟩ : ViewerIframe.Highlight)],
        trimStr (lowerStr h.text) = trimStr (lowerStr "Abc")) →
      ViewerIframe.createHighlight "Abc" "c" "b" "2" "t"
          [⟨"1", "xyz", "c0", "b0", "t0"⟩] =
        [⟨"1", "xyz", "c0", "b0", "t0"⟩]) ∧
    (ViewerIframe.createHighlight "Abc" "c" "b" "2" "t"
        [⟨"1", "xyz", "c0", "b0", "t0"⟩]).Pairwise
      (fun h1 h2 => trimStr (lowerStr h1.text) ≠ trimStr (lowerStr h2.text)) :=
  iframe_createHighlight_rejects_ci_duplicates "Abc" "c" "b" "2" "t"
    [⟨"1", "xyz", "c0", "b0", "t0"⟩] (by decide) (by simp)
